import Mathlib

/-!
Verification of the "path-of-least-resistance-conjecture" frequency-map
builder and lookup engines.

The Python sources are shallowly embedded:
* Python floats carrying failure rates are modelled exactly by `FloatVal`
  (a rational value or the `float('inf')` sentinel);
* the prime list loaded from `primes_100m.txt` and its membership set
  (`prime_set = set(prime_list)`) are modelled by a `List ℕ` parameter, with
  membership via `List.contains` on the same list, exactly as the scripts
  build the set from the list they scan;
* the builder scripts' accumulator dictionaries (`defaultdict(int)`) are
  modelled by total functions `ℕ → ℕ` updated with `Function.update`;
* the JSON persistence layer is modelled with string keys represented by
  their decimal digit expansions (`Nat.digits 10`) and float values by the
  `SerVal` type whose `infinity_token` constructor stands for the JSON
  `Infinity` literal emitted and re-parsed by `json.dump` / `json.load`.
-/

namespace PAC

/-- A Python float as used by the engines: a finite (exactly representable
decimal) value, or the `float('inf')` sentinel. -/
inductive FloatVal where
  | inf : FloatVal
  | val : ℚ → FloatVal
deriving DecidableEq, Repr

/-- Gap categories produced by `categorize_gap` in the builder and engine
scripts. -/
inductive GapCat where
  | Small : GapCat
  | Medium : GapCat
  | Large : GapCat
deriving DecidableEq, Repr

/-- `categorize_gap` from `pac_diagnostic_engine_v2_1.py` (identical in
`2D-Messiness-Map.py` and `test-10_mod6-Gap-Analysis.py`): gaps below
`GAP_BIN_SMALL = 18.0` are Small, gaps at least `GAP_BIN_LARGE = 22.0` are
Large, anything between is Medium.  Gaps of consecutive odd primes are even
integers, so the float thresholds compare exactly like the integer ones. -/
def categorize_gap (gap_g_n : ℕ) : GapCat :=
  if gap_g_n < 18 then GapCat.Small
  else if 22 ≤ gap_g_n then GapCat.Large
  else GapCat.Medium

/-- `FAILURE_COUNTS_MOD_30` from `pac_diagnostic_engine.py`: the hard-coded
failure-count table of the v1.0 engine.  Odd residues carry the count 0. -/
def FAILURE_COUNTS_MOD_30 : List (ℕ × ℕ) :=
  [(0, 9907), (1, 0), (2, 654113), (3, 0), (4, 431661), (5, 0),
   (6, 171547), (7, 0), (8, 662464), (9, 0), (10, 751163), (11, 0),
   (12, 199190), (13, 0), (14, 424448), (15, 0), (16, 426340), (17, 0),
   (18, 200139), (19, 0), (20, 749951), (21, 0), (22, 661166), (23, 0),
   (24, 171854), (25, 0), (26, 430955), (27, 0), (28, 654709), (29, 0)]

/-- `get_messiness_score` from `pac_diagnostic_engine.py`: look the residue
mod 30 up in the hard-coded table, with `dict.get`'s default of 0. -/
def get_messiness_score (anchor_sn : ℕ) : ℕ :=
  (FAILURE_COUNTS_MOD_30.lookup (anchor_sn % 30)).getD 0

/-- `MESSINESS_MAP_V2_1` from `pac_diagnostic_engine_v2_1.py`: the 2D
(residue mod 30, gap category) failure-rate table.  Missing combinations
(odd residues, and the Medium column of residues 0, 2, 8, 22, 28) are
looked up with default `float('inf')`. -/
def MESSINESS_MAP_V2_1 : List ((ℕ × GapCat) × ℚ) :=
  [((0, GapCat.Small), 0.1468), ((0, GapCat.Large), 0.1272),
   ((2, GapCat.Small), 32.9259), ((2, GapCat.Large), 33.3726),
   ((4, GapCat.Small), 24.4134), ((4, GapCat.Medium), 21.2283), ((4, GapCat.Large), 23.6586),
   ((6, GapCat.Small), 3.4541), ((6, GapCat.Medium), 3.1766), ((6, GapCat.Large), 3.1887),
   ((8, GapCat.Small), 31.9059), ((8, GapCat.Large), 30.8648),
   ((10, GapCat.Small), 23.7988), ((10, GapCat.Medium), 21.3690), ((10, GapCat.Large), 22.3325),
   ((12, GapCat.Small), 4.0594), ((12, GapCat.Medium), 3.5175), ((12, GapCat.Large), 3.3869),
   ((14, GapCat.Small), 22.9096), ((14, GapCat.Medium), 21.0282), ((14, GapCat.Large), 22.4500),
   ((16, GapCat.Small), 22.9340), ((16, GapCat.Medium), 21.1565), ((16, GapCat.Large), 22.5176),
   ((18, GapCat.Small), 4.0784), ((18, GapCat.Medium), 3.4875), ((18, GapCat.Large), 3.4216),
   ((20, GapCat.Small), 23.7749), ((20, GapCat.Medium), 21.3136), ((20, GapCat.Large), 22.3276),
   ((22, GapCat.Small), 31.9118), ((22, GapCat.Large), 30.8288),
   ((24, GapCat.Small), 3.4560), ((24, GapCat.Medium), 3.1808), ((24, GapCat.Large), 3.2031),
   ((26, GapCat.Small), 24.4130), ((26, GapCat.Medium), 21.3267), ((26, GapCat.Large), 23.4702),
   ((28, GapCat.Small), 32.9994), ((28, GapCat.Large), 33.3786)]

/-- `IMMUNITY_P5_SCORE` from `pac_diagnostic_engine_v2_1.py`. -/
def IMMUNITY_P5_SCORE : ℚ := 0.0

/-- `IMMUNITY_P4_SCORE` from `pac_diagnostic_engine_v2_1.py`. -/
def IMMUNITY_P4_SCORE : ℚ := 0.0001

/-- `get_messiness_score_v2_1` from `pac_diagnostic_engine_v2_1.py`: two
immunity overrides (anchor divisible by 2310, then by 210) followed by the
2D map lookup with default `float('inf')`. -/
def get_messiness_score_v2_1 (anchor_sn : ℕ) (gap_g_n : ℕ) : FloatVal :=
  if anchor_sn % 2310 = 0 then FloatVal.val IMMUNITY_P5_SCORE
  else if anchor_sn % 210 = 0 then FloatVal.val IMMUNITY_P4_SCORE
  else
    match MESSINESS_MAP_V2_1.lookup (anchor_sn % 30, categorize_gap gap_g_n) with
    | some score => FloatVal.val score
    | none => FloatVal.inf

/-- One probe of the bounded nearest-prime search in the builder scripts:
distance `d` hits when `anchor - d` (checked only while non-negative, as a
Python negative integer is never an element of a set of primes) or
`anchor + d` lies in `prime_set`. -/
def probe (prime_set : List ℕ) (anchor d : ℕ) : Bool :=
  (decide (d ≤ anchor) && prime_set.contains (anchor - d))
    || prime_set.contains (anchor + d)

/-- The `while True` search loop of `test-8_SAVE_MAP.py` lines 77-89 (and of
the other builder scripts): starting from `search_dist`, probe successive
distances; `fuel` counts how many distances may still be tried before the
`search_dist > 2000` bound fires, in which case 0 is returned (the sources
leave `min_distance_k = 0`). -/
def search_loop (prime_set : List ℕ) (anchor : ℕ) : ℕ → ℕ → ℕ
  | 0, _ => 0
  | fuel + 1, search_dist =>
    if probe prime_set anchor search_dist then search_dist
    else search_loop prime_set anchor fuel (search_dist + 1)

/-- The fixed search radius of the builder scripts. -/
def SEARCH_BOUND : ℕ := 2000

/-- `min_distance_k` as computed by the builder loop: the first distance in
1..2000 whose probe hits, or 0 when the bound is exceeded. -/
def min_distance_k (prime_set : List ℕ) (anchor : ℕ) : ℕ :=
  search_loop prime_set anchor SEARCH_BOUND 1

/-- Outcome of one FailureCriterion evaluation inside the builder loop. -/
inductive Classification where
  | failure : Classification
  | success : Classification
  | inconclusive : Classification
deriving DecidableEq, Repr

/-- The per-anchor classification of the builder loop
(`test-8_SAVE_MAP.py` lines 74-97): `min_distance_k == 0` means the bounded
search gave up and the loop `continue`s (inconclusive); otherwise the anchor
is a failure iff `min_distance_k > 1` and `min_distance_k not in prime_set`. -/
def classify (prime_set : List ℕ) (anchor : ℕ) : Classification :=
  let k := min_distance_k prime_set anchor
  if k = 0 then Classification.inconclusive
  else if 1 < k ∧ prime_set.contains k = false then Classification.failure
  else Classification.success

/-- Accumulator state of the mod-210 scan of `test-8_SAVE_MAP.py`: the two
`defaultdict(int)` dictionaries keyed by residue. -/
structure ScanState where
  anchor_counts : ℕ → ℕ
  failure_counts : ℕ → ℕ

/-- Both dictionaries start empty (`defaultdict(int)`). -/
def init_state : ScanState := ⟨fun _ => 0, fun _ => 0⟩

/-- The anchor computed at index `i`: `prime_list[i] + prime_list[i+1]`. -/
def anchor_at (prime_list : List ℕ) (i : ℕ) : ℕ :=
  prime_list.getD i 0 + prime_list.getD (i + 1) 0

/-- One iteration of the scan loop of `test-8_SAVE_MAP.py` (lines 61-97):
compute the anchor, bucket it by residue mod 210, increment that bucket's
anchor count, then evaluate the bounded FailureCriterion; on `continue`
(bound exceeded) nothing further happens, on a composite minimal distance
the same bucket's failure count is incremented. -/
def scan_step (prime_list : List ℕ) (st : ScanState) (i : ℕ) : ScanState :=
  let p_n := prime_list.getD i 0
  let p_n_plus_1 := prime_list.getD (i + 1) 0
  let anchor_S_n := p_n + p_n_plus_1
  let residue := anchor_S_n % 210
  let st1 : ScanState :=
    ⟨Function.update st.anchor_counts residue (st.anchor_counts residue + 1),
     st.failure_counts⟩
  match classify prime_list anchor_S_n with
  | Classification.failure =>
      ⟨st1.anchor_counts,
       Function.update st1.failure_counts residue (st1.failure_counts residue + 1)⟩
  | _ => st1

/-- The full scan loop of `test-8_SAVE_MAP.py`: indices
`START_INDEX .. START_INDEX + MAX_PRIME_PAIRS_TO_TEST - 1`, with the prime
set being `set(prime_list)` built from the very list being scanned. -/
def scan_mod210 (prime_list : List ℕ) (start count : ℕ) : ScanState :=
  (List.range' start count).foldl (scan_step prime_list) init_state

/-- The post-scan table construction of `test-8_SAVE_MAP.py` lines 107-117:
rate `(failures / total_anchors) * 100` for populated residues, the
`float('inf')` sentinel for residues that never appeared. -/
def messiness_scores_v3 (st : ScanState) (residue : ℕ) : FloatVal :=
  let failures := st.failure_counts residue
  let total_anchors := st.anchor_counts residue
  if 0 < total_anchors then
    FloatVal.val (((failures : ℚ) / (total_anchors : ℚ)) * 100)
  else FloatVal.inf

/-- The saved mod-210 map: one entry for every residue in `range(210)`. -/
def mod210_entries (st : ScanState) : List (ℕ × FloatVal) :=
  (List.range 210).map fun residue => (residue, messiness_scores_v3 st residue)

/-- `test-8_SAVE_MAP.py` end to end: `load_primes_from_file` rejects a prime
list shorter than `MAX_PRIME_PAIRS_TO_TEST + START_INDEX + 10` (it returns
`None`, the caller returns at once, so no scan runs and no output file is
written); otherwise the scan runs and the saved table is produced. -/
def run_mod210_residue_analysis (prime_list : List ℕ) (start count : ℕ) :
    Option (List (ℕ × FloatVal)) :=
  if prime_list.length < count + start + 10 then none
  else some (mod210_entries (scan_mod210 prime_list start count))

/-- Accumulator state of the compound scan of
`test-10_mod6-Gap-Analysis.py`: nested dictionaries
`{residue: {gap_category: count}}`. -/
structure ScanState6 where
  anchor_map : ℕ → GapCat → ℕ
  failure_map : ℕ → GapCat → ℕ

/-- Both nested dictionaries start empty. -/
def init_state6 : ScanState6 := ⟨fun _ _ => 0, fun _ _ => 0⟩

/-- One iteration of the scan loop of `test-10_mod6-Gap-Analysis.py`
(lines 85-127): bucket by `(anchor mod 6, gap category)`, increment the
bucket's anchor count, then evaluate the bounded FailureCriterion as in the
mod-210 scan. -/
def scan6_step (prime_list : List ℕ) (st : ScanState6) (i : ℕ) : ScanState6 :=
  let p_n := prime_list.getD i 0
  let p_n_plus_1 := prime_list.getD (i + 1) 0
  let anchor_S_n := p_n + p_n_plus_1
  let gap_g_n := p_n_plus_1 - p_n
  let residue := anchor_S_n % 6
  let gap_category := categorize_gap gap_g_n
  let st1 : ScanState6 :=
    ⟨Function.update st.anchor_map residue
       (Function.update (st.anchor_map residue) gap_category
         (st.anchor_map residue gap_category + 1)),
     st.failure_map⟩
  match classify prime_list anchor_S_n with
  | Classification.failure =>
      ⟨st1.anchor_map,
       Function.update st1.failure_map residue
         (Function.update (st1.failure_map residue) gap_category
           (st1.failure_map residue gap_category + 1))⟩
  | _ => st1

/-- The full compound scan loop of `test-10_mod6-Gap-Analysis.py`. -/
def scan_mod6gap (prime_list : List ℕ) (start count : ℕ) : ScanState6 :=
  (List.range' start count).foldl (scan6_step prime_list) init_state6

/-- The category iteration order of the table construction. -/
def GAP_CATEGORIES : List GapCat := [GapCat.Small, GapCat.Medium, GapCat.Large]

/-- The table construction of `test-10_mod6-Gap-Analysis.py` lines 144-159:
odd residues are skipped by the `residue % 2 != 0: continue`; for the even
residues every gap category is emitted, with rate
`(failures / total_anchors) * 100` when populated and `float('inf')`
otherwise. -/
def mod6gap_entries (st : ScanState6) : List ((ℕ × GapCat) × FloatVal) :=
  ((List.range 6).filter fun residue => residue % 2 == 0).flatMap fun residue =>
    GAP_CATEGORIES.map fun category =>
      ((residue, category),
        if 0 < st.anchor_map residue category then
          FloatVal.val (((st.failure_map residue category : ℚ) /
            (st.anchor_map residue category : ℚ)) * 100)
        else FloatVal.inf)

/-- `get_vmod6_score` from
`test_files_archive/PLR_Engine/v13_recursive_signature.py` (identical in
`v18_adaptive_engine.py`).  The global `MESSINESS_MAP_V_MOD6` is `None`
before `load_engine_data` runs, in which case the function returns
`float('inf')`; once loaded it is a dict from residues to rates, read with
`dict.get` defaulting to `float('inf')`. -/
def get_vmod6_score (MESSINESS_MAP_V_MOD6 : Option (List (ℕ × FloatVal)))
    (anchor_sn : ℕ) : FloatVal :=
  match MESSINESS_MAP_V_MOD6 with
  | none => FloatVal.inf
  | some m => (m.lookup (anchor_sn % 6)).getD FloatVal.inf

/-- A value as it appears in the persisted JSON files: either the JSON
`Infinity` literal that Python's `json.dump` writes for `float('inf')`, or
a finite number. -/
inductive SerVal where
  | infinity_token : SerVal
  | num : ℚ → SerVal
deriving DecidableEq, Repr

/-- Encoding of one float value by `json.dump`. -/
def encode_value : FloatVal → SerVal
  | FloatVal.inf => SerVal.infinity_token
  | FloatVal.val q => SerVal.num q

/-- Decoding of one JSON value by `json.load` (Python parses `Infinity`
back to `float('inf')`). -/
def decode_value : SerVal → FloatVal
  | SerVal.infinity_token => FloatVal.inf
  | SerVal.num q => FloatVal.val q

/-- Serialization of a messiness map as done by `json.dump` in
`test-8_SAVE_MAP.py` lines 119-125: the integer residue keys become their
decimal strings (modelled by the decimal digit expansion `Nat.digits 10`),
the float values are written with `Infinity` for the sentinel. -/
def serialize_map (m : List (ℕ × FloatVal)) : List (List ℕ × SerVal) :=
  m.map fun e => (Nat.digits 10 e.1, encode_value e.2)

/-- Deserialization as done by `load_engine_data` in
`test_files_archive/PLR_Engine/v18_adaptive_engine.py` lines 52-69:
`{int(k): v for k, v in json.load(f).items()}`, parsing each decimal string
key back to the integer residue and each value back to a float. -/
def deserialize_map (s : List (List ℕ × SerVal)) : List (ℕ × FloatVal) :=
  s.map fun e => (Nat.ofDigits 10 e.1, decode_value e.2)

/-- The spec's notion of a probe hit at distance `k`: `anchor - k` or
`anchor + k` is a prime number.  Natural subtraction truncates `anchor - k`
to 0 for `k > anchor`; 0 is not prime, matching the Python code where a
negative integer is never an element of a set of primes. -/
def spec_near (anchor k : ℕ) : Prop :=
  Nat.Prime (anchor - k) ∨ Nat.Prime (anchor + k)

/-- Primality by trial division, used to build concrete prime tables for
the witnesses; proven equivalent to `Nat.Prime` in `primeB_iff` below. -/
def primeB (n : ℕ) : Bool :=
  decide (2 ≤ n) && ((List.range n).all fun d => decide (d < 2) || decide (¬ d ∣ n))

/-- The list of all primes up to 2100, membership in which agrees with
primality on the whole window a radius-2000 search around the anchor 100
can reach. -/
def primes2100 : List ℕ := (List.range 2101).filter primeB

/-! ## Helper lemmas -/

theorem primeB_iff (n : ℕ) : primeB n = true ↔ Nat.Prime n := by
  rw [Nat.prime_def_lt]
  simp only [primeB, Bool.and_eq_true, List.all_eq_true, List.mem_range,
    Bool.or_eq_true, decide_eq_true_eq]
  constructor
  · rintro ⟨h2, hall⟩
    refine ⟨h2, fun m hm hdvd => ?_⟩
    rcases hall m hm with hlt | hnd
    · have hm0 : m ≠ 0 := by
        rintro rfl
        rw [Nat.zero_dvd] at hdvd
        omega
      omega
    · exact absurd hdvd hnd
  · rintro ⟨h2, hmin⟩
    refine ⟨h2, fun d hd => ?_⟩
    by_cases hlt : d < 2
    · exact Or.inl hlt
    · refine Or.inr fun hdvd => ?_
      have := hmin d hd hdvd
      omega

theorem primes2100_agrees :
    ∀ n, n ≤ 100 + 2000 → (primes2100.contains n = true ↔ Nat.Prime n) := by
  intro n hn
  rw [← primeB_iff]
  have hmem : primes2100.contains n = true ↔ n ∈ primes2100 := by
    simp [List.contains, List.elem_iff]
  rw [hmem, primes2100, List.mem_filter, List.mem_range]
  constructor
  · rintro ⟨_, hp⟩
    exact hp
  · intro hp
    exact ⟨by omega, hp⟩

theorem search_loop_spec (ps : List ℕ) (anchor : ℕ) :
    ∀ fuel d,
      (search_loop ps anchor fuel d = 0 ∧
        ∀ j, d ≤ j → j < d + fuel → probe ps anchor j = false) ∨
      (d ≤ search_loop ps anchor fuel d ∧
        search_loop ps anchor fuel d < d + fuel ∧
        probe ps anchor (search_loop ps anchor fuel d) = true ∧
        ∀ j, d ≤ j → j < search_loop ps anchor fuel d →
          probe ps anchor j = false) := by
  intro fuel
  induction fuel with
  | zero =>
    intro d
    left
    exact ⟨rfl, fun j h1 h2 => absurd h2 (by omega)⟩
  | succ m ih =>
    intro d
    by_cases hp : probe ps anchor d = true
    · right
      have hsl : search_loop ps anchor (m + 1) d = d := by
        simp [search_loop, hp]
      rw [hsl]
      exact ⟨le_refl d, by omega, hp, fun j h1 h2 => absurd h2 (by omega)⟩
    · have hp2 : probe ps anchor d = false := by
        cases h : probe ps anchor d
        · rfl
        · exact absurd h hp
      have hrec : search_loop ps anchor (m + 1) d = search_loop ps anchor m (d + 1) := by
        simp [search_loop, hp2]
      rcases ih (d + 1) with ⟨h0, hnone⟩ | ⟨h1, h2, h3, h4⟩
      · left
        rw [hrec]
        refine ⟨h0, fun j hj1 hj2 => ?_⟩
        rcases Nat.eq_or_lt_of_le hj1 with rfl | hlt
        · exact hp2
        · exact hnone j (by omega) (by omega)
      · right
        rw [hrec]
        refine ⟨by omega, by omega, h3, fun j hj1 hj2 => ?_⟩
        rcases Nat.eq_or_lt_of_le hj1 with rfl | hlt
        · exact hp2
        · exact h4 j (by omega) hj2

theorem probe_iff_spec_near (ps : List ℕ) (anchor k : ℕ) (hk : k ≤ 2000)
    (hps : ∀ n, n ≤ anchor + 2000 → (ps.contains n = true ↔ Nat.Prime n)) :
    probe ps anchor k = true ↔ spec_near anchor k := by
  unfold probe spec_near
  simp only [Bool.or_eq_true, Bool.and_eq_true, decide_eq_true_eq]
  constructor
  · rintro (⟨hle, hc⟩ | hc)
    · exact Or.inl ((hps _ (by omega)).1 hc)
    · exact Or.inr ((hps _ (by omega)).1 hc)
  · rintro (hp | hp)
    · have hle : k ≤ anchor := by
        by_contra hgt
        push_neg at hgt
        have h0 : anchor - k = 0 := by omega
        rw [h0] at hp
        exact Nat.not_prime_zero hp
      exact Or.inl ⟨hle, (hps _ (by omega)).2 hp⟩
    · exact Or.inr ((hps _ (by omega)).2 hp)

theorem foldl_preserve {α β : Type} (f : α → β → α) (P : α → Prop)
    (hstep : ∀ st i, P st → P (f st i)) :
    ∀ (l : List β) (init : α), P init → P (l.foldl f init) := by
  intro l
  induction l with
  | nil =>
    intro init h
    exact h
  | cons x xs ih =>
    intro init h
    exact ih (f init x) (hstep init x h)

theorem scan_step_preserves (prime_list : List ℕ) (st : ScanState) (i : ℕ)
    (h : ∀ r, st.failure_counts r ≤ st.anchor_counts r) :
    ∀ r, (scan_step prime_list st i).failure_counts r ≤
      (scan_step prime_list st i).anchor_counts r := by
  intro r
  have h1 := h r
  have h2 := h ((prime_list.getD i 0 + prime_list.getD (i + 1) 0) % 210)
  simp only [scan_step]
  cases hc : classify prime_list (prime_list.getD i 0 + prime_list.getD (i + 1) 0) <;>
    dsimp only <;>
    by_cases hr : r = (prime_list.getD i 0 + prime_list.getD (i + 1) 0) % 210
  all_goals
    first
    | (subst hr
       rw [Function.update_same, Function.update_same]
       omega)
    | (subst hr
       rw [Function.update_same]
       omega)
    | (rw [Function.update_noteq hr, Function.update_noteq hr]
       exact h1)
    | (rw [Function.update_noteq hr]
       exact h1)

/-! ## Claim theorems -/

/-- C5 (amended): the v1.0 engine `get_messiness_score` reports every
never-observed bucket as the finite score 0: all odd residues (the
permanently impossible buckets, since a sum of two odd primes is even) are
hard-coded to 0 in `FAILURE_COUNTS_MOD_30`, and an out-of-table residue
would fall back to `dict.get`'s default 0.  The infinity sentinel for
unobserved buckets exists only in the later engines, not in v1.0. -/
theorem zero_default_scores :
    ∀ anchor_sn, anchor_sn % 2 = 1 → get_messiness_score anchor_sn = 0 := by
  have htab : ∀ r, r < 30 → r % 2 = 1 →
      (FAILURE_COUNTS_MOD_30.lookup r).getD 0 = 0 := by decide
  intro a ha
  have h30 : a % 30 < 30 := Nat.mod_lt _ (by omega)
  have hodd : a % 30 % 2 = 1 := by
    rw [Nat.mod_mod_of_dvd a (by norm_num)]
    exact ha
  exact htab _ h30 hodd

/-- Witness for C5 at the concrete anchor 31 (residue 1, an impossible
bucket): the hypothesis `31 % 2 = 1` holds and the v1.0 score is 0. -/
theorem zero_default_scores_witness :
    31 % 2 = 1 ∧ get_messiness_score 31 = 0 :=
  ⟨by decide, zero_default_scores 31 (by decide)⟩

/-- Counterexample to C5 as stated: anchor 31 falls in residue bucket
1 mod 30, an odd residue that can never be observed (the spec itself calls
odd residues permanently impossible), yet `get_messiness_score` returns the
finite default 0 — not an infinity sentinel and not an error. -/
theorem zero_default_scores_cex :
    get_messiness_score 31 = 0 ∧ 31 % 30 % 2 = 1 := by
  exact ⟨by decide, by decide⟩

/-- C6 (amended): the score operations never raise at all.  Invoked before
the backing map is loaded (`MESSINESS_MAP_V_MOD6 is None`), `get_vmod6_score`
returns the infinity sentinel rather than raising; once a map is loaded it
never raises for any integer anchor, returning infinity for unpopulated
buckets; and `get_messiness_score_v2_1` likewise returns infinity for any
(residue, gap-category) combination missing from its compiled-in map. -/
theorem score_never_raises :
    (∀ anchor_sn, get_vmod6_score none anchor_sn = FloatVal.inf) ∧
    (∀ m anchor_sn, m.lookup (anchor_sn % 6) = none →
      get_vmod6_score (some m) anchor_sn = FloatVal.inf) ∧
    (∀ anchor_sn gap_g_n, anchor_sn % 2310 ≠ 0 → anchor_sn % 210 ≠ 0 →
      MESSINESS_MAP_V2_1.lookup (anchor_sn % 30, categorize_gap gap_g_n) = none →
      get_messiness_score_v2_1 anchor_sn gap_g_n = FloatVal.inf) := by
  refine ⟨fun _ => rfl, fun m a h => ?_, fun a g h1 h2 h3 => ?_⟩
  · simp [get_vmod6_score, h]
  · simp [get_messiness_score_v2_1, h1, h2, h3]

/-- Witness for C6 at concrete inputs: the unloaded engine, a loaded map
with no entry for the residue, and a v2.1 lookup miss all yield infinity. -/
theorem score_never_raises_witness :
    get_vmod6_score none 8 = FloatVal.inf ∧
    get_vmod6_score (some [(0, FloatVal.val 1)]) 7 = FloatVal.inf ∧
    get_messiness_score_v2_1 30 20 = FloatVal.inf :=
  ⟨score_never_raises.1 8,
   score_never_raises.2.1 _ 7 (by decide),
   score_never_raises.2.2 30 20 (by decide) (by decide) (by decide)⟩

/-- Counterexample to C6 as stated: no `EngineNotLoadedError` exists
anywhere in the repository, and calling the score function before the map
is loaded does not surface an error of any kind — it returns the plain
infinity value, indistinguishable from a loaded-but-unpopulated bucket
(here: the engine loaded with an empty map). -/
theorem engine_not_loaded_cex :
    get_vmod6_score none 8 = FloatVal.inf ∧
    get_vmod6_score none 8 = get_vmod6_score (some []) 8 :=
  ⟨rfl, rfl⟩

/-- C7 (amended): the builder checks its input length before any
accumulation, but against the fixed margin 10 (`required_primes =
MAX_PRIME_PAIRS_TO_TEST + START_INDEX + 10`), not against the bounded
search radius plus one: with fewer than `count + start + 10` primes the
run aborts before scanning and produces no output, and with at least that
many it proceeds even when `count + start + 2001` exceeds the length
(the nearest-prime search probes by value in `prime_set`, never by index,
so no larger margin is consulted). -/
theorem insufficient_data_check (prime_list : List ℕ) (start count : ℕ) :
    (prime_list.length < count + start + 10 →
      run_mod210_residue_analysis prime_list start count = none) ∧
    (count + start + 10 ≤ prime_list.length →
      run_mod210_residue_analysis prime_list start count ≠ none) := by
  constructor
  · intro h
    simp [run_mod210_residue_analysis, h]
  · intro h
    simp [run_mod210_residue_analysis, Nat.not_lt.2 h]

/-- Witness for C7: an empty prime list aborts a 1-pair scan with no
output, while 25 primes suffice for a 1-pair scan starting at index 10. -/
theorem insufficient_data_check_witness :
    run_mod210_residue_analysis [] 0 1 = none ∧
    run_mod210_residue_analysis (List.range 25) 10 1 ≠ none :=
  ⟨(insufficient_data_check [] 0 1).1 (by decide),
   (insufficient_data_check (List.range 25) 10 1).2 (by decide)⟩

/-- Counterexample to C7 as stated: a 21-element sequence with start 10 and
count 1 satisfies `start + count + (search radius + 1) > length`, so the
claim demands a failure with no output — but the build passes its length
check (margin 10) and produces the output map. -/
theorem insufficient_data_cex :
    (run_mod210_residue_analysis (List.range 21) 10 1).isSome = true ∧
    (List.range 21).length < 10 + 1 + (SEARCH_BOUND + 1) :=
  ⟨rfl, by decide⟩

/-- C8: at every step of the mod-210 scan (any start and any count, hence
any prefix of any scan) and in particular in the state from which the final
FrequencyMap is derived, every residue bucket satisfies
`failure_count ≤ anchor_count`: a failure is only recorded in the same
iteration in which that bucket's anchor count was just incremented. -/
theorem counts_consistent (prime_list : List ℕ) (start count r : ℕ) :
    (scan_mod210 prime_list start count).failure_counts r ≤
      (scan_mod210 prime_list start count).anchor_counts r :=
  foldl_preserve (scan_step prime_list)
    (fun st => ∀ s, st.failure_counts s ≤ st.anchor_counts s)
    (fun st i h => scan_step_preserves prime_list st i h)
    (List.range' start count) init_state (fun _ => Nat.le_refl 0) r

/-- C9: serializing a messiness map to the JSON persistence format (string
keys modelled by decimal digit expansions, `float('inf')` written as the
`Infinity` token) and deserializing it the way `load_engine_data` does
(`int(k)` on each key) yields a structurally equal map, and the infinity
sentinel round-trips to the positive-infinity float. -/
theorem serialization_round_trip :
    (∀ m : List (ℕ × FloatVal), deserialize_map (serialize_map m) = m) ∧
    decode_value (encode_value FloatVal.inf) = FloatVal.inf := by
  constructor
  · intro m
    induction m with
    | nil => rfl
    | cons e rest ih =>
      obtain ⟨k, v⟩ := e
      simp only [serialize_map, deserialize_map, List.map_cons] at ih ⊢
      rw [List.cons_eq_cons]
      refine ⟨?_, ih⟩
      rw [Nat.ofDigits_digits]
      cases v <;> rfl
  · rfl

/-- C10: the immunity overrides of `get_messiness_score_v2_1` short-circuit
before the 2D map lookup, in order: an anchor divisible by 2310 scores
exactly 0.0, and an anchor divisible by 210 but not by 2310 scores exactly
0.0001, in both cases for every gap argument. -/
theorem immunity_overrides (anchor_sn gap_g_n : ℕ) :
    (anchor_sn % 2310 = 0 →
      get_messiness_score_v2_1 anchor_sn gap_g_n = FloatVal.val 0.0) ∧
    (anchor_sn % 210 = 0 → anchor_sn % 2310 ≠ 0 →
      get_messiness_score_v2_1 anchor_sn gap_g_n = FloatVal.val 0.0001) := by
  constructor
  · intro h
    simp [get_messiness_score_v2_1, h, IMMUNITY_P5_SCORE]
  · intro h210 h2310
    simp [get_messiness_score_v2_1, h210, h2310, IMMUNITY_P4_SCORE]

/-- Witness for C10: 2310 (divisible by 2310) scores 0.0 and 210
(divisible by 210 but not 2310) scores 0.0001, at arbitrary gaps. -/
theorem immunity_overrides_witness :
    get_messiness_score_v2_1 2310 5 = FloatVal.val 0.0 ∧
    get_messiness_score_v2_1 210 25 = FloatVal.val 0.0001 :=
  ⟨(immunity_overrides 2310 5).1 (by decide),
   (immunity_overrides 210 25).2 (by decide) (by decide)⟩

/-- C1 (amended): when the bounded nearest-prime search for the anchor at
index `i` exceeds its radius (`min_distance_k` returns 0), the loop
`continue`s without error, but only after the bucket's anchor count was
already incremented: the skipped index contributes to `anchor_count` and
not to `failure_count`. -/
theorem bounded_search_skip (prime_list : List ℕ) (st : ScanState) (i : ℕ)
    (h : min_distance_k prime_list (anchor_at prime_list i) = 0) :
    (scan_step prime_list st i).anchor_counts (anchor_at prime_list i % 210) =
      st.anchor_counts (anchor_at prime_list i % 210) + 1 ∧
    (scan_step prime_list st i).failure_counts = st.failure_counts := by
  have h2 : min_distance_k prime_list
      (prime_list.getD i 0 + prime_list.getD (i + 1) 0) = 0 := h
  have hcl : classify prime_list
      (prime_list.getD i 0 + prime_list.getD (i + 1) 0) =
      Classification.inconclusive := by
    simp only [classify, h2]
    rfl
  simp only [anchor_at, scan_step, hcl]
  exact ⟨Function.update_same _ _ _, trivial⟩

set_option maxRecDepth 40000 in
/-- Witness for C1: the two-element list `[5000, 5002]` has no member
within distance 2000 of the anchor `10002`, so the bounded search gives up
at index 0, yet the step increments bucket `10002 % 210 = 132` and leaves
the failure counts untouched. -/
theorem bounded_search_skip_witness :
    min_distance_k [5000, 5002] (anchor_at [5000, 5002] 0) = 0 ∧
    ((scan_step [5000, 5002] init_state 0).anchor_counts
        (anchor_at [5000, 5002] 0 % 210) =
      init_state.anchor_counts (anchor_at [5000, 5002] 0 % 210) + 1 ∧
    (scan_step [5000, 5002] init_state 0).failure_counts =
      init_state.failure_counts) := by
  have h : min_distance_k [5000, 5002] (anchor_at [5000, 5002] 0) = 0 := by decide
  exact ⟨h, bounded_search_skip [5000, 5002] init_state 0 h⟩

set_option maxRecDepth 40000 in
/-- Counterexample to C1 as stated: in the scan of `[5000, 5002]` the only
index is skipped by the bounded search (`min_distance_k = 0`), yet its
bucket 132 ends with `anchor_count = 1`, not 0 — the skipped index does
count toward `anchor_count` (only `failure_count` is left at 0), because
the source increments `anchor_counts[residue]` before running the search. -/
theorem bounded_search_skip_cex :
    min_distance_k [5000, 5002] (anchor_at [5000, 5002] 0) = 0 ∧
    (scan_mod210 [5000, 5002] 0 1).anchor_counts 132 = 1 ∧
    (scan_mod210 [5000, 5002] 0 1).failure_counts 132 = 0 := by
  refine ⟨by decide, by decide, by decide⟩

/-- C2 (amended): for every scan, the saved single-axis mod-210 map
contains exactly 210 keys (its full domain) and assigns the infinity
sentinel to every bucket with zero observed anchors; the compound mod-6
map, however, only covers the even residues — exactly 9 = 3 * (6/2) keys,
not 3 * 6 — with the infinity sentinel assigned to every unobserved
(even residue, gap category) bin among them. -/
theorem total_domain (prime_list : List ℕ) (start count : ℕ) :
    (mod210_entries (scan_mod210 prime_list start count)).length = 210 ∧
    (∀ r, r < 210 → (scan_mod210 prime_list start count).anchor_counts r = 0 →
      (r, FloatVal.inf) ∈ mod210_entries (scan_mod210 prime_list start count)) ∧
    (mod6gap_entries (scan_mod6gap prime_list start count)).length = 9 ∧
    (∀ r c, r < 6 → r % 2 = 0 →
      (scan_mod6gap prime_list start count).anchor_map r c = 0 →
      ((r, c), FloatVal.inf) ∈ mod6gap_entries (scan_mod6gap prime_list start count)) := by
  refine ⟨by simp [mod210_entries], ?_, by rfl, ?_⟩
  · intro r hr h0
    rw [mod210_entries]
    refine List.mem_map.2 ⟨r, List.mem_range.2 hr, ?_⟩
    simp [messiness_scores_v3, h0]
  · intro r c hr he h0
    rw [mod6gap_entries]
    refine List.mem_flatMap.2 ⟨r, ?_, ?_⟩
    · simp [List.mem_filter, List.mem_range, hr, he]
    · refine List.mem_map.2 ⟨c, ?_, by simp [h0]⟩
      cases c <;> simp [GAP_CATEGORIES]

/-- Witness for C2 on the scan of `[3, 5]` (one pair, anchor 8): the
mod-210 map has 210 keys and carries the infinity sentinel at the
unobserved residue 0; the compound map has 9 keys and carries the infinity
sentinel at the unobserved bin (0, Small). -/
theorem total_domain_witness :
    (mod210_entries (scan_mod210 [3, 5] 0 1)).length = 210 ∧
    (0, FloatVal.inf) ∈ mod210_entries (scan_mod210 [3, 5] 0 1) ∧
    (mod6gap_entries (scan_mod6gap [3, 5] 0 1)).length = 9 ∧
    ((0, GapCat.Small), FloatVal.inf) ∈ mod6gap_entries (scan_mod6gap [3, 5] 0 1) := by
  obtain ⟨h1, h2, h3, h4⟩ := total_domain [3, 5] 0 1
  exact ⟨h1, h2 0 (by decide) (by decide), h3,
    h4 0 GapCat.Small (by decide) (by decide) (by decide)⟩

/-- Counterexample to C2 as stated: the compound mod-6 map built from the
non-empty scan of `[3, 5]` has 9 keys, not 3 * 6 = 18, and contains no key
for the domain bucket (1, Small) at all — odd residues are skipped by the
table construction, not emitted with the infinity sentinel. -/
theorem total_domain_cex :
    (mod6gap_entries (scan_mod6gap [3, 5] 0 1)).length = 9 ∧
    (mod6gap_entries (scan_mod6gap [3, 5] 0 1)).length ≠ 3 * 6 ∧
    ((mod6gap_entries (scan_mod6gap [3, 5] 0 1)).map Prod.fst).contains
      (1, GapCat.Small) = false := by
  exact ⟨rfl, by decide, by decide⟩

/-- C4 (amended): for every bucket with `anchor_count > 0` the stored rate
is `(failure_count / anchor_count) * 100` — a percentage, not the bare
ratio — so in a scan where exactly 2 anchors fall into residue bucket 8 and
exactly 1 of them is a FailureCriterion hit, the stored score is exactly
50.0 (and not 0.5). -/
theorem failure_rate_formula :
    (∀ st r, 0 < st.anchor_counts r →
      messiness_scores_v3 st r =
        FloatVal.val (((st.failure_counts r : ℚ) / (st.anchor_counts r : ℚ)) * 100)) ∧
    ((scan_mod210 [3, 5, 213, 222] 0 2).anchor_counts 8 = 2 ∧
     (scan_mod210 [3, 5, 213, 222] 0 2).failure_counts 8 = 1 ∧
     messiness_scores_v3 (scan_mod210 [3, 5, 213, 222] 0 2) 8 = FloatVal.val 50) := by
  have hgen : ∀ st r, 0 < st.anchor_counts r →
      messiness_scores_v3 st r =
        FloatVal.val (((st.failure_counts r : ℚ) / (st.anchor_counts r : ℚ)) * 100) := by
    intro st r h
    simp [messiness_scores_v3, h]
  have ha : (scan_mod210 [3, 5, 213, 222] 0 2).anchor_counts 8 = 2 := by decide
  have hf : (scan_mod210 [3, 5, 213, 222] 0 2).failure_counts 8 = 1 := by decide
  refine ⟨hgen, ha, hf, ?_⟩
  rw [hgen _ 8 (by rw [ha]; omega), ha, hf]
  norm_num

/-- Witness for C4: the bucket 8 of the scan of `[3, 5, 213, 222]` is
populated, and the rate formula applies to it. -/
theorem failure_rate_formula_witness :
    0 < (scan_mod210 [3, 5, 213, 222] 0 2).anchor_counts 8 ∧
    messiness_scores_v3 (scan_mod210 [3, 5, 213, 222] 0 2) 8 =
      FloatVal.val ((((scan_mod210 [3, 5, 213, 222] 0 2).failure_counts 8 : ℚ) /
        ((scan_mod210 [3, 5, 213, 222] 0 2).anchor_counts 8 : ℚ)) * 100) := by
  have h : 0 < (scan_mod210 [3, 5, 213, 222] 0 2).anchor_counts 8 := by decide
  exact ⟨h, failure_rate_formula.1 _ 8 h⟩

/-- Counterexample to C4 as stated: scanning `[3, 5, 213, 222]` puts
exactly 2 anchors (8 and 218) into residue bucket 8 with exactly 1 failure
(anchor 218, minimal distance 4, composite), yet the stored score is not
the claimed ratio 1/2 = 0.5 — the source multiplies the ratio by 100. -/
theorem failure_rate_formula_cex :
    (scan_mod210 [3, 5, 213, 222] 0 2).anchor_counts 8 = 2 ∧
    (scan_mod210 [3, 5, 213, 222] 0 2).failure_counts 8 = 1 ∧
    messiness_scores_v3 (scan_mod210 [3, 5, 213, 222] 0 2) 8 ≠
      FloatVal.val (1 / 2) := by
  have ha : (scan_mod210 [3, 5, 213, 222] 0 2).anchor_counts 8 = 2 := by decide
  have hf : (scan_mod210 [3, 5, 213, 222] 0 2).failure_counts 8 = 1 := by decide
  refine ⟨ha, hf, ?_⟩
  norm_num [messiness_scores_v3, ha, hf]

/-- C3: assuming the loaded prime set agrees with true primality on the
whole window the bounded search can reach (which holds for the real prime
file, a full initial segment of the primes far longer than the radius),
the builder classifies an anchor as a failure if and only if the minimal
positive offset `k` with `anchor - k` or `anchor + k` prime exists within
the search radius 2000 and is neither 1 nor itself prime; and if no such
offset exists within the radius the anchor is classified inconclusive,
never a failure. -/
theorem FailureCriterion_spec (ps : List ℕ) (anchor : ℕ)
    (hps : ∀ n, n ≤ anchor + 2000 → (ps.contains n = true ↔ Nat.Prime n)) :
    (classify ps anchor = Classification.failure ↔
      ∃ k, 1 ≤ k ∧ k ≤ 2000 ∧ spec_near anchor k ∧
        (∀ j, 1 ≤ j → j < k → ¬ spec_near anchor j) ∧ k ≠ 1 ∧ ¬ Nat.Prime k) ∧
    ((∀ k, 1 ≤ k → k ≤ 2000 → ¬ spec_near anchor k) →
      classify ps anchor = Classification.inconclusive) := by
  have hcl : classify ps anchor =
      (if search_loop ps anchor 2000 1 = 0 then Classification.inconclusive
       else if 1 < search_loop ps anchor 2000 1 ∧
           ps.contains (search_loop ps anchor 2000 1) = false then Classification.failure
       else Classification.success) := rfl
  rcases search_loop_spec ps anchor 2000 1 with ⟨h0, hnone⟩ | ⟨h1, h2, h3, h4⟩
  · constructor
    · rw [hcl, if_pos h0]
      constructor
      · intro hf
        exact absurd hf (by simp)
      · rintro ⟨k, hk1, hk2, hnear, _, _, _⟩
        have hpk : probe ps anchor k = true :=
          (probe_iff_spec_near ps anchor k hk2 hps).2 hnear
        have hpf : probe ps anchor k = false := hnone k hk1 (by omega)
        rw [hpk] at hpf
        exact absurd hpf (by simp)
    · intro _
      rw [hcl, if_pos h0]
  · have hKne : search_loop ps anchor 2000 1 ≠ 0 := by omega
    have hKnear : spec_near anchor (search_loop ps anchor 2000 1) :=
      (probe_iff_spec_near ps anchor _ (by omega) hps).1 h3
    constructor
    · constructor
      · intro hf
        rw [hcl, if_neg hKne] at hf
        by_cases hcomp : 1 < search_loop ps anchor 2000 1 ∧
            ps.contains (search_loop ps anchor 2000 1) = false
        · refine ⟨search_loop ps anchor 2000 1, h1, by omega, hKnear, ?_, by omega, ?_⟩
          · intro j hj1 hj2 hnear
            have hpj : probe ps anchor j = true :=
              (probe_iff_spec_near ps anchor j (by omega) hps).2 hnear
            have hpf : probe ps anchor j = false := h4 j hj1 hj2
            rw [hpj] at hpf
            exact absurd hpf (by simp)
          · intro hP
            have hc : ps.contains (search_loop ps anchor 2000 1) = true :=
              (hps _ (by omega)).2 hP
            rw [hc] at hcomp
            exact absurd hcomp.2 (by simp)
        · rw [if_neg hcomp] at hf
          exact absurd hf (by simp)
      · rintro ⟨k, hk1, hk2, hnear, hmin, hne1, hnp⟩
        have hpk : probe ps anchor k = true :=
          (probe_iff_spec_near ps anchor k hk2 hps).2 hnear
        have hkK : k = search_loop ps anchor 2000 1 := by
          rcases Nat.lt_trichotomy k (search_loop ps anchor 2000 1) with hlt | heq | hgt
          · have hpf : probe ps anchor k = false := h4 k hk1 hlt
            rw [hpk] at hpf
            exact absurd hpf (by simp)
          · exact heq
          · exact absurd hKnear (hmin _ h1 hgt)
        have hcont : ps.contains (search_loop ps anchor 2000 1) = false := by
          rcases hcf : ps.contains (search_loop ps anchor 2000 1) with _ | _
          · rfl
          · exact absurd ((hps _ (by omega)).1 hcf) (hkK ▸ hnp)
        rw [hcl, if_neg hKne, if_pos ⟨by omega, hcont⟩]
    · intro hall
      exact absurd hKnear (hall _ h1 (by omega))

/-- Witness for C3: the concrete prime table `primes2100` (all primes up
to 2100) satisfies the agreement hypothesis for the anchor 100, and the
characterization holds there. -/
theorem FailureCriterion_spec_witness :
    (∀ n, n ≤ 100 + 2000 → (primes2100.contains n = true ↔ Nat.Prime n)) ∧
    ((classify primes2100 100 = Classification.failure ↔
      ∃ k, 1 ≤ k ∧ k ≤ 2000 ∧ spec_near 100 k ∧
        (∀ j, 1 ≤ j → j < k → ¬ spec_near 100 j) ∧ k ≠ 1 ∧ ¬ Nat.Prime k) ∧
     ((∀ k, 1 ≤ k → k ≤ 2000 → ¬ spec_near 100 k) →
      classify primes2100 100 = Classification.inconclusive)) :=
  ⟨primes2100_agrees, FailureCriterion_spec primes2100 100 primes2100_agrees⟩

end PAC
